import Mathlib

/-
Verification of the flood staging/upload daemon (Go, src/main.go and the
earlier iteration in src/unnamed/part_000) against its natural-language
specification.  The Go code is shallowly embedded: paths are segment lists
(the result of splitting a filesystem path on the separator), remote and
random behaviour is an explicit environment, durations are nanosecond
naturals (Go time.Duration values in the exercised range are positive and
far from overflow), and each run returns a transcript of the observable
effects (final stage, ledger rows, upload attempts, HEAD/PUT calls, sleeps).
-/

namespace Flood

/-- Stage of a staged file: its position in the five-directory pipeline.
The model only ever needs the stages a claimed file can occupy. -/
inductive Stage
  | incoming
  | processing
  | completed
  | failed
deriving DecidableEq, Repr

/-- Row of the file_records SQLite table as written by logRetry
(src/main.go lines 302-313): profile, bucket, filepath, retries, outcome.
The filepath is kept as its segment list; the timestamp column is wall-clock
time and is not modelled. -/
structure LedgerRow where
  profile : String
  bucket : String
  filepath : List String
  retries : Nat
  outcome : String
deriving DecidableEq, Repr

/-- Kinds of error the transport/client layer can signal, each with the
canonical message text such an error renders to (errMsg below).  The three
transient kinds carry the marker substrings the Go code greps for; the
permanent kinds render to typical AWS SDK error strings. -/
inductive S3Err
  | timeout
  | connReset
  | dnsErr
  | authFail
  | noSuchBucket
  | malformedReq
  | unknownKind
deriving DecidableEq, Repr

/-- Canonical rendering of each transport error kind, as err.Error() would
produce it in Go. -/
def errMsg : S3Err → String
  | S3Err.timeout => "dial tcp: i/o timeout"
  | S3Err.connReset => "read tcp: connection reset by peer"
  | S3Err.dnsErr => "DNS error: no such host"
  | S3Err.authFail => "api error InvalidAccessKeyId: the key does not exist in our records"
  | S3Err.noSuchBucket => "api error NoSuchBucket: the specified bucket does not exist"
  | S3Err.malformedReq => "api error MalformedXML: the XML was not well-formed"
  | S3Err.unknownKind => "api error InternalError: please try again"

/-- Boolean test that pat is a leading run of s (character lists). -/
def leadsWith : List Char → List Char → Bool
  | _, [] => true
  | [], _ :: _ => false
  | a :: s, b :: p => a == b && leadsWith s p

/-- Boolean test that pat occurs contiguously somewhere in s, the semantics
of Go strings.Contains. -/
def occursIn (pat : List Char) : List Char → Bool
  | [] => pat.isEmpty
  | a :: s => leadsWith (a :: s) pat || occursIn pat s

/-- Embedding of strings.Contains(s, pat). -/
def strContains (s pat : String) : Bool :=
  occursIn pat.data s.data

/-- Embedding of isTransientError (src/main.go lines 451-455): an error is
transient exactly when its message contains one of the three substrings. -/
def isTransientError (msg : String) : Bool :=
  strContains msg "timeout" || strContains msg "connection reset" ||
    strContains msg "DNS error"

/-- Retry ceiling, src/main.go line 212: maxRetries = 10. -/
def maxRetries : Nat := 10

/-- Initial backoff, src/main.go line 213: initialBackoff = 30s, in
nanoseconds (Go time.Duration unit). -/
def initialBackoffNs : Nat := 30 * 1000000000

/-- Backoff delay slept after the transient failure of attempt n
(src/main.go lines 433-435): initialBackoff * (1 << n) plus
rand.Intn(1000) milliseconds of jitter.  The jitter draw j is reduced
mod 1000, the contract of rand.Intn(1000). -/
def backoffDelayNs (n j : Nat) : Nat :=
  initialBackoffNs * 2 ^ n + j % 1000 * 1000000

/-- Embedding of validateBucketExists (src/main.go lines 457-471):
listBuckets either fails with a transport error (wrapped as
"failed to list buckets: ...") or yields the bucket names, which are
checked for exact membership; a miss yields the does-not-exist error. -/
def validateBucketExists (listResult : Except S3Err (List String))
    (bucketName : String) : Option String :=
  match listResult with
  | Except.error e => some ("failed to list buckets: " ++ errMsg e)
  | Except.ok buckets =>
      if buckets.contains bucketName then none
      else some ("bucket " ++ bucketName ++ " does not exist on S3 server")

/-- Observable effects of one uploadToS3 call: how many HeadObject metadata
queries it made, how many PutObject transfers it made, and the error it
returned (none on success). -/
structure UploadTrace where
  headCalls : Nat
  putCalls : Nat
  result : Option String
deriving DecidableEq, Repr

/-- Embedding of uploadToS3 in the retry iteration (src/main.go lines
589-608): it opens the local file and issues PutObject unconditionally —
no HeadObject metadata query is made — and wraps a transport failure as
"failed to upload file: ...".  The transport outcome of the PutObject call
is supplied by the environment. -/
def uploadToS3 (putOutcome : Option S3Err) : UploadTrace :=
  match putOutcome with
  | some e => { headCalls := 0, putCalls := 1,
                result := some ("failed to upload file: " ++ errMsg e) }
  | none => { headCalls := 0, putCalls := 1, result := none }

/-- Environment of one claimed file's processing: the remote ListBuckets
outcome and the PutObject transport outcome as seen by the call made at
each retryCount value, and the stream of rand.Intn(1000) jitter draws. -/
structure Env where
  listBuckets : Nat → Except S3Err (List String)
  putOutcome : Nat → Option S3Err
  jitter : Nat → Nat

/-- Transcript of processFileWithRetry on one claimed file: final stage of
the file, ledger rows appended in order, retryCount values at which
uploadToS3 was invoked, total HeadObject and PutObject calls, and the
backoff sleeps performed, in order and in nanoseconds. -/
structure RunResult where
  stage : Stage
  ledger : List LedgerRow
  attempts : List Nat
  headCalls : Nat
  putCalls : Nat
  sleepsNs : List Nat
deriving DecidableEq, Repr

/-- Embedding of processFileWithRetry (src/main.go lines 402-449).  Guard:
retryCount > maxRetries moves the file to failed with one failure row.
Otherwise the bucket is validated (any validation error: immediate failed
plus one failure row), the path must split into at least 4 parts (else the
call just returns), and uploadToS3 runs: a transient failure sleeps the
backoff and recurses at retryCount+1, a permanent failure moves to failed
with one failure row, success moves to completed with one success row. -/
def processFileWithRetry (env : Env) (profileName bucketName : String)
    (path : List String) (retryCount : Nat) : RunResult :=
  if _h : maxRetries < retryCount then
    { stage := Stage.failed,
      ledger := [⟨profileName, bucketName, path, retryCount, "failure"⟩],
      attempts := [], headCalls := 0, putCalls := 0, sleepsNs := [] }
  else
    match validateBucketExists (env.listBuckets retryCount) bucketName with
    | some _ =>
        { stage := Stage.failed,
          ledger := [⟨profileName, bucketName, path, retryCount, "failure"⟩],
          attempts := [], headCalls := 0, putCalls := 0, sleepsNs := [] }
    | none =>
        if path.length < 4 then
          { stage := Stage.processing, ledger := [], attempts := [],
            headCalls := 0, putCalls := 0, sleepsNs := [] }
        else
          let t := uploadToS3 (env.putOutcome retryCount)
          match t.result with
          | some msg =>
              if isTransientError msg then
                let rest := processFileWithRetry env profileName bucketName
                  path (retryCount + 1)
                { stage := rest.stage, ledger := rest.ledger,
                  attempts := retryCount :: rest.attempts,
                  headCalls := t.headCalls + rest.headCalls,
                  putCalls := t.putCalls + rest.putCalls,
                  sleepsNs := backoffDelayNs retryCount (env.jitter retryCount)
                    :: rest.sleepsNs }
              else
                { stage := Stage.failed,
                  ledger := [⟨profileName, bucketName, path, retryCount,
                    "failure"⟩],
                  attempts := [retryCount], headCalls := t.headCalls,
                  putCalls := t.putCalls, sleepsNs := [] }
          | none =>
              { stage := Stage.completed,
                ledger := [⟨profileName, bucketName, path, retryCount,
                  "success"⟩],
                attempts := [retryCount], headCalls := t.headCalls,
                putCalls := t.putCalls, sleepsNs := [] }
termination_by maxRetries + 1 - retryCount
decreasing_by simp_wf; omega

/-- Observable outcome of handleFileEvent for one notification: whether the
event was dropped without processing, whether the unknown-profile log line
was emitted, whether the file was claimed (renamed into processing), and
the transcript of the processing run when one happened. -/
structure EventResult where
  dropped : Bool
  loggedUnknownProfile : Bool
  claimed : Bool
  run : Option RunResult
deriving Repr

/-- Ledger rows written while handling one event: those of the processing
run when the file was processed, none otherwise. -/
def eventLedger (r : EventResult) : List LedgerRow :=
  match r.run with
  | some res => res.ledger
  | none => []

/-- Embedding of handleFileEvent (src/main.go lines 374-400).  The path
relative to the incoming root is split with SplitN(..., 3); fewer than 2
parts: bare return (no log).  parts[0] must name a known profile, else the
unknown-profile line is logged and the event dropped.  Otherwise the file
is claimed — renamed to serverDir/processing/profile/bucket — and
processFileWithRetry runs on that path at retryCount 0.  serverSegs is the
segment split of serverDir. -/
def handleFileEvent (env : Env) (knownProfiles : List String)
    (serverSegs : List String) (rel : List String) : EventResult :=
  match rel with
  | profileName :: bucketName :: _ =>
      if knownProfiles.contains profileName then
        let processingPath := serverSegs ++ ["processing", profileName, bucketName]
        { dropped := false, loggedUnknownProfile := false, claimed := true,
          run := some (processFileWithRetry env profileName bucketName
            processingPath 0) }
      else
        { dropped := true, loggedUnknownProfile := true, claimed := false,
          run := none }
  | _ =>
      { dropped := true, loggedUnknownProfile := false, claimed := false,
        run := none }

/-- Startup phases of server mode, named after the three functions
runServerMode calls. -/
inductive ServerPhase
  | processExistingFiles
  | setupWatcher
  | processIncomingFiles
deriving DecidableEq, Repr

/-- Embedding of runServerMode (src/main.go lines 315-319) as the sequence
of startup phases it executes, in program order: the recovery scan of the
processing directories, then setupWatcher (which creates the fsnotify
watcher, starts its event goroutine and registers every incoming
directory), then the scan of pre-existing incoming files. -/
def runServerMode : List ServerPhase :=
  [ServerPhase.processExistingFiles, ServerPhase.setupWatcher,
    ServerPhase.processIncomingFiles]

/-- Result of a code path that may call log.Fatal: fatal carries the
logged message and means full-process termination. -/
inductive ProcResult (α : Type)
  | ok (a : α)
  | fatal (msg : String)
deriving Repr

/-- Environment of a copy-mode run: the remote ListBuckets outcome and the
local filesystem read, mapping a source path to its contents when readable. -/
structure CopyEnv where
  listBuckets : Except S3Err (List String)
  readFile : List String → Option String

/-- Embedding of copyFile (src/main.go lines 544-559): os.ReadFile of the
source, then write to the destination; a read failure calls log.Fatal(err),
terminating the whole process (MkdirAll and WriteFile failures do the
same and are subsumed by the modelled read failure). -/
def copyFile (env : CopyEnv) (src dst : List String) :
    ProcResult (List String × String) :=
  match env.readFile src with
  | none => ProcResult.fatal ("open " ++ String.intercalate "/" src ++
      ": no such file or directory")
  | some contents => ProcResult.ok (dst, contents)

/-- Embedding of runCopyMode (src/main.go lines 485-517) for a single-file
copy.  destSegs is the SplitN(..., 3)-style split of the destination URI
after trimming the s3:// scheme: fewer than 3 parts is log.Fatal
"Invalid S3 URI"; an unknown profile is log.Fatal; a validateBucketExists
error — bucket missing or connectivity — is log.Fatalf of that error;
then copyFile stages the source under incoming_tmp/profile/bucket/key,
and the staged file is moved to the same location under incoming. -/
def runCopyMode (env : CopyEnv) (knownProfiles : List String)
    (serverSegs : List String) (destSegs : List String)
    (source : List String) : ProcResult (List String × String) :=
  match destSegs with
  | profileName :: bucketName :: objectKey :: _ =>
      if knownProfiles.contains profileName then
        match validateBucketExists env.listBuckets bucketName with
        | some msg => ProcResult.fatal msg
        | none =>
            match copyFile env source
              (serverSegs ++ ["incoming_tmp", profileName, bucketName,
                objectKey]) with
            | ProcResult.fatal msg => ProcResult.fatal msg
            | ProcResult.ok (_, contents) =>
                ProcResult.ok (serverSegs ++ ["incoming", profileName,
                  bucketName, objectKey], contents)
      else ProcResult.fatal ("Unknown profile: " ++ profileName)
  | _ => ProcResult.fatal "Invalid S3 URI"

/-- Concrete processing path used by the concrete scenarios: serverDir /srv,
so the claimed file lives at /srv/processing/p1/b1 and SplitN(path, sep, 4)
yields exactly these four parts. -/
def pathC : List String := ["", "srv", "processing", "p1/b1"]

/-- Environment where bucket b1 exists remotely and every PutObject
succeeds. -/
def envOk : Env := ⟨fun _ => Except.ok ["b1"], fun _ => none, fun _ => 0⟩

/-- Environment where bucket b1 exists and every PutObject fails with a
network timeout (a transient error). -/
def envAllTransient : Env :=
  ⟨fun _ => Except.ok ["b1"], fun _ => some S3Err.timeout, fun _ => 0⟩

/-- Environment where bucket b1 exists, the first three PutObject calls
fail with a timeout, and every later one succeeds. -/
def envThreeThenSuccess : Env :=
  ⟨fun _ => Except.ok ["b1"],
   fun m => if m < 3 then some S3Err.timeout else none, fun _ => 0⟩

/-- Environment where every ListBuckets call fails with a network timeout,
a connectivity error. -/
def envValidateConnFail : Env :=
  ⟨fun _ => Except.error S3Err.timeout, fun _ => none, fun _ => 0⟩

/-- Environment where bucket b1 exists and every PutObject fails with an
authentication error (a permanent error). -/
def envPermanentFail : Env :=
  ⟨fun _ => Except.ok ["b1"], fun _ => some S3Err.authFail, fun _ => 0⟩

/-- Copy-mode environment where the remote bucket listing does not contain
the requested bucket media, while the local source file is readable. -/
def copyEnvMissingBucket : CopyEnv := ⟨Except.ok ["other"], fun _ => some "data"⟩

/-- Copy-mode environment where bucket media exists remotely but the local
source file cannot be read. -/
def copyEnvReadFail : CopyEnv := ⟨Except.ok ["media"], fun _ => none⟩

/-- Unfolding lemma for the ceiling branch of processFileWithRetry:
retryCount above maxRetries finalizes to Failed with one failure row and
performs no upload attempt. -/
lemma step_ceiling (env : Env) (p b : String) (path : List String) (r : Nat)
    (hr : maxRetries < r) :
    processFileWithRetry env p b path r =
      { stage := Stage.failed, ledger := [⟨p, b, path, r, "failure"⟩],
        attempts := [], headCalls := 0, putCalls := 0, sleepsNs := [] } := by
  rw [processFileWithRetry]
  simp [hr]

/-- Unfolding lemma for the validation-failure branch: any
validateBucketExists error finalizes to Failed at once, with one failure
row, no upload attempt and no backoff sleep. -/
lemma step_validateFail (env : Env) (p b : String) (path : List String)
    (r : Nat) (hr : ¬ maxRetries < r) (msg : String)
    (hv : validateBucketExists (env.listBuckets r) b = some msg) :
    processFileWithRetry env p b path r =
      { stage := Stage.failed, ledger := [⟨p, b, path, r, "failure"⟩],
        attempts := [], headCalls := 0, putCalls := 0, sleepsNs := [] } := by
  rw [processFileWithRetry]
  simp [hr, hv]

/-- Unfolding lemma for the short-path branch: a processing path with fewer
than 4 split parts makes the call return with no move, no ledger row and no
upload. -/
lemma step_shortPath (env : Env) (p b : String) (path : List String) (r : Nat)
    (hr : ¬ maxRetries < r)
    (hv : validateBucketExists (env.listBuckets r) b = none)
    (hpl : path.length < 4) :
    processFileWithRetry env p b path r =
      { stage := Stage.processing, ledger := [], attempts := [],
        headCalls := 0, putCalls := 0, sleepsNs := [] } := by
  rw [processFileWithRetry]
  simp [hr, hv, hpl]

/-- Unfolding lemma for the success branch: a successful PutObject at
retryCount r finalizes to Completed with one success row at attempt r. -/
lemma step_success (env : Env) (p b : String) (path : List String) (r : Nat)
    (hr : ¬ maxRetries < r)
    (hv : validateBucketExists (env.listBuckets r) b = none)
    (hpl : ¬ path.length < 4)
    (hu : env.putOutcome r = none) :
    processFileWithRetry env p b path r =
      { stage := Stage.completed, ledger := [⟨p, b, path, r, "success"⟩],
        attempts := [r], headCalls := 0, putCalls := 1, sleepsNs := [] } := by
  rw [processFileWithRetry]
  simp [hr, hv, hpl, hu, uploadToS3]

/-- Unfolding lemma for the transient-failure branch: a transient PutObject
failure at retryCount r sleeps exactly the backoff delay for attempt r and
continues as the run from r+1, with attempt r recorded. -/
lemma step_transient (env : Env) (p b : String) (path : List String) (r : Nat)
    (hr : ¬ maxRetries < r)
    (hv : validateBucketExists (env.listBuckets r) b = none)
    (hpl : ¬ path.length < 4) (e : S3Err)
    (hu : env.putOutcome r = some e)
    (ht : isTransientError ("failed to upload file: " ++ errMsg e) = true) :
    processFileWithRetry env p b path r =
      (let rest := processFileWithRetry env p b path (r + 1)
       { stage := rest.stage, ledger := rest.ledger,
         attempts := r :: rest.attempts, headCalls := rest.headCalls,
         putCalls := 1 + rest.putCalls,
         sleepsNs := backoffDelayNs r (env.jitter r) :: rest.sleepsNs }) := by
  rw [processFileWithRetry]
  simp [hr, hv, hpl, hu, uploadToS3, ht]

/-- Unfolding lemma for the permanent-failure branch: a non-transient
PutObject failure at retryCount r finalizes to Failed at once with one
failure row, no retry and no backoff sleep. -/
lemma step_permanent (env : Env) (p b : String) (path : List String) (r : Nat)
    (hr : ¬ maxRetries < r)
    (hv : validateBucketExists (env.listBuckets r) b = none)
    (hpl : ¬ path.length < 4) (e : S3Err)
    (hu : env.putOutcome r = some e)
    (ht : isTransientError ("failed to upload file: " ++ errMsg e) = false) :
    processFileWithRetry env p b path r =
      { stage := Stage.failed, ledger := [⟨p, b, path, r, "failure"⟩],
        attempts := [r], headCalls := 0, putCalls := 1, sleepsNs := [] } := by
  rw [processFileWithRetry]
  simp [hr, hv, hpl, hu, uploadToS3, ht]

/-- Complete description of a run in which validation always passes and
every upload attempt fails transiently: starting from any retryCount
r ≤ maxRetries+1, the file ends Failed with a single failure ledger row at
attempt number maxRetries+1 = 11, upload attempts r, r+1, ..., maxRetries
are made, and each attempt n is followed by a backoff sleep of
backoffDelayNs n. -/
lemma run_allTransient (env : Env) (p b : String) (path : List String)
    (hpl : ¬ path.length < 4)
    (hv : ∀ m, m ≤ maxRetries →
      validateBucketExists (env.listBuckets m) b = none)
    (hu : ∀ m, m ≤ maxRetries → ∃ e, env.putOutcome m = some e ∧
      isTransientError ("failed to upload file: " ++ errMsg e) = true) :
    ∀ r, r ≤ maxRetries + 1 →
      processFileWithRetry env p b path r =
        { stage := Stage.failed,
          ledger := [⟨p, b, path, maxRetries + 1, "failure"⟩],
          attempts := List.range' r (maxRetries + 1 - r),
          headCalls := 0, putCalls := maxRetries + 1 - r,
          sleepsNs := (List.range' r (maxRetries + 1 - r)).map
            (fun n => backoffDelayNs n (env.jitter n)) } := by
  have key : ∀ k r, maxRetries + 1 - r = k → r ≤ maxRetries + 1 →
      processFileWithRetry env p b path r =
        { stage := Stage.failed,
          ledger := [⟨p, b, path, maxRetries + 1, "failure"⟩],
          attempts := List.range' r (maxRetries + 1 - r),
          headCalls := 0, putCalls := maxRetries + 1 - r,
          sleepsNs := (List.range' r (maxRetries + 1 - r)).map
            (fun n => backoffDelayNs n (env.jitter n)) } := by
    intro k
    induction k with
    | zero =>
        intro r hk hr
        have hr11 : r = maxRetries + 1 := by omega
        subst hr11
        rw [step_ceiling env p b path (maxRetries + 1) (by omega)]
        simp
    | succ k ih =>
        intro r hk hr
        have hrm : r ≤ maxRetries := by omega
        obtain ⟨e, hue, hte⟩ := hu r hrm
        rw [step_transient env p b path r (by omega) (hv r hrm) hpl e hue hte]
        rw [ih (r + 1) (by omega) (by omega)]
        have hk1 : maxRetries + 1 - r = k + 1 := hk
        have hk2 : maxRetries + 1 - (r + 1) = k := by omega
        rw [hk1, hk2]
        rw [List.range'_succ]
        simp [Nat.add_comm]
  intro r hr
  exact key (maxRetries + 1 - r) r rfl hr

/-- Complete description of a run in which validation always passes, the
attempts before s fail transiently and attempt s succeeds: from any start
r ≤ s the file ends Completed with exactly one ledger row — the success
row at attempt s — having made upload attempts r, ..., s, with a backoff
sleep after each failed attempt. -/
lemma run_transientThenSuccess (env : Env) (p b : String)
    (path : List String) (hpl : ¬ path.length < 4) (s : Nat)
    (hs : s ≤ maxRetries)
    (hv : ∀ m, m ≤ s → validateBucketExists (env.listBuckets m) b = none)
    (hu : ∀ m, m < s → ∃ e, env.putOutcome m = some e ∧
      isTransientError ("failed to upload file: " ++ errMsg e) = true)
    (hus : env.putOutcome s = none) :
    ∀ r, r ≤ s →
      processFileWithRetry env p b path r =
        { stage := Stage.completed,
          ledger := [⟨p, b, path, s, "success"⟩],
          attempts := List.range' r (s + 1 - r),
          headCalls := 0, putCalls := s + 1 - r,
          sleepsNs := (List.range' r (s - r)).map
            (fun n => backoffDelayNs n (env.jitter n)) } := by
  have key : ∀ k r, s - r = k → r ≤ s →
      processFileWithRetry env p b path r =
        { stage := Stage.completed,
          ledger := [⟨p, b, path, s, "success"⟩],
          attempts := List.range' r (s + 1 - r),
          headCalls := 0, putCalls := s + 1 - r,
          sleepsNs := (List.range' r (s - r)).map
            (fun n => backoffDelayNs n (env.jitter n)) } := by
    intro k
    induction k with
    | zero =>
        intro r hk hr
        have hrs : r = s := by omega
        subst hrs
        rw [step_success env p b path r (by omega) (hv r le_rfl) hpl hus]
        have h1 : r + 1 - r = 1 := by omega
        have h0 : r - r = 0 := by omega
        rw [h1, h0]
        simp [List.range']
    | succ k ih =>
        intro r hk hr
        have hrs : r < s := by omega
        obtain ⟨e, hue, hte⟩ := hu r hrs
        rw [step_transient env p b path r (by omega) (hv r (by omega)) hpl
          e hue hte]
        rw [ih (r + 1) (by omega) (by omega)]
        have h1 : s + 1 - r = (s + 1 - (r + 1)) + 1 := by omega
        have h2 : s - r = (s - (r + 1)) + 1 := by omega
        rw [h1, h2, List.range'_succ, List.range'_succ]
        simp [Nat.add_comm]
  intro r hr
  exact key (s - r) r rfl hr

/-- Refutation of C1 as stated: in the concrete environment where every
upload attempt fails with a timeout, the Upload Executor performs the
attempts numbered 0 through 10 — eleven attempts, including an 11th attempt
numbered 10 — before finalizing to Failed, not the claimed ten. -/
theorem c1_counterexample :
    (processFileWithRetry envAllTransient "p1" "b1" pathC 0).attempts =
      List.range 11 ∧
    (processFileWithRetry envAllTransient "p1" "b1" pathC 0).stage =
      Stage.failed := by
  rw [run_allTransient envAllTransient "p1" "b1" pathC (by decide)
    (fun _ _ => rfl)
    (fun _ _ => ⟨S3Err.timeout, rfl, by decide⟩) 0 (by decide)]
  exact ⟨by decide, rfl⟩

/-- C1 (amended): for every claimed file whose every upload attempt fails
with a transient error, the Upload Executor performs exactly 11 upload
attempts (attempt numbers 0 through maxRetries = 10) before finalizing the
file to Failed; no 12th attempt is ever made. -/
theorem c1_theorem (env : Env) (p b : String) (path : List String)
    (hpl : ¬ path.length < 4)
    (hv : ∀ m, m ≤ maxRetries →
      validateBucketExists (env.listBuckets m) b = none)
    (hu : ∀ m, m ≤ maxRetries → ∃ e, env.putOutcome m = some e ∧
      isTransientError ("failed to upload file: " ++ errMsg e) = true) :
    (processFileWithRetry env p b path 0).attempts =
      List.range (maxRetries + 1) ∧
    (processFileWithRetry env p b path 0).stage = Stage.failed ∧
    (processFileWithRetry env p b path 0).attempts.length = maxRetries + 1 := by
  rw [run_allTransient env p b path hpl hv hu 0 (by omega)]
  refine ⟨?_, rfl, ?_⟩ <;> simp [List.range_eq_range']

/-- Witness for C1 (amended) at the concrete always-timeout environment. -/
theorem c1_witness :
    (processFileWithRetry envAllTransient "p1" "b1" pathC 0).attempts =
      List.range 11 ∧
    (processFileWithRetry envAllTransient "p1" "b1" pathC 0).stage =
      Stage.failed ∧
    (processFileWithRetry envAllTransient "p1" "b1" pathC 0).attempts.length
      = 11 :=
  c1_theorem envAllTransient "p1" "b1" pathC (by decide) (fun _ _ => rfl)
    (fun _ _ => ⟨S3Err.timeout, rfl, by decide⟩)

/-- C2: evaluation of the code at the claim's own scenario — first three
attempts fail transiently, the fourth succeeds.  The file does end in
Completed with the last outcome success, but the run writes exactly ONE
ledger row (the terminal success row at attempt 3), not one row per
attempt: the three transient attempts write no row, contradicting the
claim and the repository's own requirement that every retry attempt be
logged with its timestamp and outcome. -/
theorem c2_theorem :
    (processFileWithRetry envThreeThenSuccess "p1" "b1" pathC 0).stage =
      Stage.completed ∧
    (processFileWithRetry envThreeThenSuccess "p1" "b1" pathC 0).attempts =
      [0, 1, 2, 3] ∧
    (processFileWithRetry envThreeThenSuccess "p1" "b1" pathC 0).ledger =
      [⟨"p1", "b1", pathC, 3, "success"⟩] := by
  rw [run_transientThenSuccess envThreeThenSuccess "p1" "b1" pathC
    (by decide) 3 (by decide) (fun _ _ => rfl)
    (fun m hm => ⟨S3Err.timeout, by simp [envThreeThenSuccess, hm], by decide⟩)
    (by decide) 0 (by decide)]
  exact ⟨rfl, by decide, rfl⟩

/-- Refutation of C3 as stated: when bucket validation fails with a
connectivity error — here a ListBuckets timeout, whose message the
transient classifier would accept, as the second conjunct shows — the file
is moved to Failed immediately with a failure ledger row: no upload
attempt, no backoff sleep, no retry of the validation. -/
theorem c3_counterexample :
    processFileWithRetry envValidateConnFail "p1" "b1" pathC 0 =
      { stage := Stage.failed, ledger := [⟨"p1", "b1", pathC, 0, "failure"⟩],
        attempts := [], headCalls := 0, putCalls := 0, sleepsNs := [] } ∧
    isTransientError "failed to list buckets: dial tcp: i/o timeout" = true :=
  ⟨step_validateFail envValidateConnFail "p1" "b1" pathC 0 (by decide) _ rfl,
    by decide⟩

/-- C3 (amended): for every claimed file, any bucket-validation failure —
connectivity error and bucket-not-found alike — moves the file directly to
Failed with a single failure ledger row at the current attempt number; the
validation error is never classified as transient and never retried. -/
theorem c3_theorem (env : Env) (p b : String) (path : List String) (r : Nat)
    (msg : String) (hr : ¬ maxRetries < r)
    (hv : validateBucketExists (env.listBuckets r) b = some msg) :
    processFileWithRetry env p b path r =
      { stage := Stage.failed, ledger := [⟨p, b, path, r, "failure"⟩],
        attempts := [], headCalls := 0, putCalls := 0, sleepsNs := [] } :=
  step_validateFail env p b path r hr msg hv

/-- Witness for C3 (amended) at the concrete connectivity-failure
environment. -/
theorem c3_witness :
    processFileWithRetry envValidateConnFail "p1" "b1" pathC 0 =
      { stage := Stage.failed, ledger := [⟨"p1", "b1", pathC, 0, "failure"⟩],
        attempts := [], headCalls := 0, putCalls := 0, sleepsNs := [] } :=
  c3_theorem envValidateConnFail "p1" "b1" pathC 0 _ (by decide) rfl

/-- Refutation of C4 as stated: in a run with a successful first attempt
the code performs zero HeadObject metadata queries (headCalls = 0, so the
remote object's metadata is not queried before the attempt, whatever the
remote holds) and transfers the bytes (putCalls = 1). -/
theorem c4_counterexample :
    processFileWithRetry envOk "p1" "b1" pathC 0 =
      { stage := Stage.completed, ledger := [⟨"p1", "b1", pathC, 0, "success"⟩],
        attempts := [0], headCalls := 0, putCalls := 1, sleepsNs := [] } :=
  step_success envOk "p1" "b1" pathC 0 (by decide) rfl (by decide) rfl

/-- C4 (amended): for every claimed file, no remote-metadata (HeadObject)
query is ever made, and every upload attempt transfers the bytes via an
unconditional PutObject — one PUT per attempt — so a remote object already
matching the local file is overwritten rather than skipped. -/
theorem c4_theorem (env : Env) (p b : String) (path : List String) (r : Nat) :
    (processFileWithRetry env p b path r).headCalls = 0 ∧
    (processFileWithRetry env p b path r).putCalls =
      (processFileWithRetry env p b path r).attempts.length := by
  have key : ∀ k r, maxRetries + 1 - r = k →
      (processFileWithRetry env p b path r).headCalls = 0 ∧
      (processFileWithRetry env p b path r).putCalls =
        (processFileWithRetry env p b path r).attempts.length := by
    intro k
    induction k with
    | zero =>
        intro r hk
        rw [step_ceiling env p b path r (by omega)]
        exact ⟨rfl, rfl⟩
    | succ k ih =>
        intro r hk
        have hr : ¬ maxRetries < r := by omega
        cases hv : validateBucketExists (env.listBuckets r) b with
        | some msg =>
            rw [step_validateFail env p b path r hr msg hv]
            exact ⟨rfl, rfl⟩
        | none =>
            by_cases hpl : path.length < 4
            · rw [step_shortPath env p b path r hr hv hpl]
              exact ⟨rfl, rfl⟩
            · cases hu : env.putOutcome r with
              | none =>
                  rw [step_success env p b path r hr hv hpl hu]
                  exact ⟨rfl, rfl⟩
              | some e =>
                  cases ht : isTransientError
                      ("failed to upload file: " ++ errMsg e) with
                  | false =>
                      rw [step_permanent env p b path r hr hv hpl e hu ht]
                      exact ⟨rfl, rfl⟩
                  | true =>
                      rw [step_transient env p b path r hr hv hpl e hu ht]
                      obtain ⟨ih1, ih2⟩ := ih (r + 1) (by omega)
                      refine ⟨ih1, ?_⟩
                      simp [ih2, Nat.add_comm]
  exact key (maxRetries + 1 - r) r rfl

/-- C5: evaluation of the server-mode startup order.  runServerMode
executes the recovery scan of processing, then enables the filesystem
watcher, and only then scans the pre-existing incoming files — the watcher
is enabled BEFORE the incoming scan completes, contradicting the claimed
strict order (both scans before live monitoring) and the repository's own
requirements 24-26. -/
theorem c5_theorem :
    runServerMode = [ServerPhase.processExistingFiles,
      ServerPhase.setupWatcher, ServerPhase.processIncomingFiles] ∧
    runServerMode.indexOf ServerPhase.setupWatcher <
      runServerMode.indexOf ServerPhase.processIncomingFiles :=
  ⟨rfl, by decide⟩

/-- Refutation of C6 as stated: a notified path with only TWO segments
(profile and bucket, no key) is not dropped — it is claimed and processed,
although its relative path has fewer than three segments. -/
theorem c6_counterexample :
    (handleFileEvent envOk ["p1"] ["", "srv"] ["p1", "b1"]).claimed = true ∧
    (handleFileEvent envOk ["p1"] ["", "srv"] ["p1", "b1"]).dropped = false ∧
    (["p1", "b1"] : List String).length < 3 :=
  ⟨rfl, rfl, by decide⟩

/-- C6 (amended): only a notified path whose relative path has fewer than
TWO segments is dropped, and it is dropped silently — no malformed-path or
other log line — with no claim, no processing run and hence no upload or
ledger row; a two-segment path (profile and bucket but no key) is claimed
and processed. -/
theorem c6_theorem (env : Env) (kp serverSegs rel : List String)
    (h : rel.length < 2) :
    handleFileEvent env kp serverSegs rel =
      { dropped := true, loggedUnknownProfile := false, claimed := false,
        run := none } := by
  cases rel with
  | nil => rfl
  | cons x t =>
      cases t with
      | nil => rfl
      | cons y t2 =>
          simp only [List.length_cons] at h
          omega

/-- Witness for C6 (amended) at a one-segment notified path. -/
theorem c6_witness :
    handleFileEvent envOk ["p1"] ["", "srv"] ["stray.tmp"] =
      { dropped := true, loggedUnknownProfile := false, claimed := false,
        run := none } :=
  c6_theorem envOk ["p1"] ["", "srv"] ["stray.tmp"] (by decide)

/-- C7: evaluation of copy mode at two per-file errors.  A destination
bucket absent from the remote listing makes runCopyMode terminate the whole
process (log.Fatalf), and so does a local read error on the source file —
contradicting the claim (and the repository's own requirement 44, which
says a missing bucket is logged and that bucket skipped). -/
theorem c7_theorem :
    runCopyMode copyEnvMissingBucket ["p1"] ["", "srv"]
      ["p1", "media", "file.txt"] ["", "tmp", "src.txt"] =
      ProcResult.fatal "bucket media does not exist on S3 server" ∧
    runCopyMode copyEnvReadFail ["p1"] ["", "srv"]
      ["p1", "media", "file.txt"] ["", "tmp", "src.txt"] =
      ProcResult.fatal "open /tmp/src.txt: no such file or directory" := by
  constructor <;> rfl

/-- C8: an upload error is classified transient exactly when its kind is a
network timeout, a connection reset or a DNS resolution failure; every
other kind — authentication failure, missing bucket, malformed request,
and unknown kinds — is classified permanent, and a permanent failure at
any attempt finalizes the file to Failed at once with one failure ledger
row, no further attempt and no backoff sleep. -/
theorem c8_theorem (e : S3Err) :
    (isTransientError ("failed to upload file: " ++ errMsg e) = true ↔
      (e = S3Err.timeout ∨ e = S3Err.connReset ∨ e = S3Err.dnsErr)) ∧
    (isTransientError ("failed to upload file: " ++ errMsg e) = false →
      ∀ (env : Env) (p b : String) (path : List String) (r : Nat),
        ¬ maxRetries < r →
        validateBucketExists (env.listBuckets r) b = none →
        ¬ path.length < 4 → env.putOutcome r = some e →
        processFileWithRetry env p b path r =
          { stage := Stage.failed, ledger := [⟨p, b, path, r, "failure"⟩],
            attempts := [r], headCalls := 0, putCalls := 1,
            sleepsNs := [] }) := by
  refine ⟨?_, fun hf env p b path r hr hv hpl hu =>
    step_permanent env p b path r hr hv hpl e hu hf⟩
  cases e <;> decide

/-- Witness for C8 at the authentication-failure kind and the concrete
permanent-failure environment. -/
theorem c8_witness :
    (isTransientError ("failed to upload file: " ++ errMsg S3Err.authFail) =
        true ↔
      (S3Err.authFail = S3Err.timeout ∨ S3Err.authFail = S3Err.connReset ∨
        S3Err.authFail = S3Err.dnsErr)) ∧
    processFileWithRetry envPermanentFail "p1" "b1" pathC 0 =
      { stage := Stage.failed, ledger := [⟨"p1", "b1", pathC, 0, "failure"⟩],
        attempts := [0], headCalls := 0, putCalls := 1, sleepsNs := [] } :=
  ⟨(c8_theorem S3Err.authFail).1,
    (c8_theorem S3Err.authFail).2 (by decide) envPermanentFail "p1" "b1"
      pathC 0 (by decide) rfl (by decide) rfl⟩

/-- C9: when attempt n (0-indexed) fails transiently, the delay slept
before attempt n+1 is exactly initialBackoff * 2 ^ n plus the jitter
rand.Intn(1000) milliseconds, a value in the half-open interval [0, 1s);
the equality holds for every n the executor reaches, so no additional cap
is applied to the computed delay. -/
theorem c9_theorem (env : Env) (p b : String) (path : List String) (n : Nat)
    (hn : ¬ maxRetries < n)
    (hv : validateBucketExists (env.listBuckets n) b = none)
    (hpl : ¬ path.length < 4) (e : S3Err)
    (hu : env.putOutcome n = some e)
    (ht : isTransientError ("failed to upload file: " ++ errMsg e) = true) :
    (processFileWithRetry env p b path n).sleepsNs =
      (initialBackoffNs * 2 ^ n + env.jitter n % 1000 * 1000000) ::
        (processFileWithRetry env p b path (n + 1)).sleepsNs ∧
    (processFileWithRetry env p b path n).attempts =
      n :: (processFileWithRetry env p b path (n + 1)).attempts ∧
    env.jitter n % 1000 * 1000000 < 1000000000 := by
  rw [step_transient env p b path n hn hv hpl e hu ht]
  refine ⟨rfl, rfl, ?_⟩
  have hj : env.jitter n % 1000 < 1000 := Nat.mod_lt _ (by norm_num)
  omega

/-- Witness for C9 at attempt 0 of the always-timeout environment. -/
theorem c9_witness :
    (processFileWithRetry envAllTransient "p1" "b1" pathC 0).sleepsNs =
      (initialBackoffNs * 2 ^ 0 + envAllTransient.jitter 0 % 1000 * 1000000)
        :: (processFileWithRetry envAllTransient "p1" "b1" pathC 1).sleepsNs ∧
    (processFileWithRetry envAllTransient "p1" "b1" pathC 0).attempts =
      0 :: (processFileWithRetry envAllTransient "p1" "b1" pathC 1).attempts ∧
    envAllTransient.jitter 0 % 1000 * 1000000 < 1000000000 :=
  c9_theorem envAllTransient "p1" "b1" pathC 0 (by decide) rfl (by decide)
    S3Err.timeout rfl (by decide)

/-- Refutation of C10 as stated: a one-segment arrival event whose first
(and only) segment names no known profile is dropped, but WITHOUT the
unknown-profile log line the claim promises. -/
theorem c10_counterexample :
    (handleFileEvent envOk ["p1"] ["", "srv"] ["zzz"]).loggedUnknownProfile =
      false ∧
    (handleFileEvent envOk ["p1"] ["", "srv"] ["zzz"]).dropped = true ∧
    (["p1"] : List String).contains "zzz" = false :=
  ⟨rfl, rfl, by decide⟩

/-- C10 (amended): every arrival event with at least two path segments
whose first segment does not name a known profile is logged as an unknown
profile and dropped before any claim — the file is not renamed out of
incoming, it is never moved to Failed, no processing runs and no ledger
row is written; an event with fewer than two segments is dropped without
that log line. -/
theorem c10_theorem (env : Env) (kp serverSegs : List String) (p b : String)
    (rest : List String) (h : kp.contains p = false) :
    handleFileEvent env kp serverSegs (p :: b :: rest) =
      { dropped := true, loggedUnknownProfile := true, claimed := false,
        run := none } ∧
    eventLedger (handleFileEvent env kp serverSegs (p :: b :: rest)) = [] := by
  have hmain : handleFileEvent env kp serverSegs (p :: b :: rest) =
      { dropped := true, loggedUnknownProfile := true, claimed := false,
        run := none } := by
    have h' : p ∉ kp := by simpa using h
    simp [handleFileEvent, h']
  exact ⟨hmain, by rw [hmain]; rfl⟩

/-- Witness for C10 (amended) at a two-segment event with unknown
profile. -/
theorem c10_witness :
    handleFileEvent envOk ["p1"] ["", "srv"] ["zzz", "b1"] =
      { dropped := true, loggedUnknownProfile := true, claimed := false,
        run := none } ∧
    eventLedger (handleFileEvent envOk ["p1"] ["", "srv"] ["zzz", "b1"]) =
      [] :=
  c10_theorem envOk ["p1"] ["", "srv"] "zzz" "b1" [] (by decide)

end Flood
